import Mathlib

/-!
Verification of the computation pipelines of `Drywall_and_Insulation_Estimator.py`.

The file shallowly embeds the two pure computation pipelines of the program:

* the drywall estimator (`run_drywall_estimator`): per-room areas, material
  takeoff quantities, material and labour costs, totals — over `ℚ`;
* the insulation estimator (`run_insulation_estimator`): wall/cathedral/ceiling
  bag counts, labour components, totals — over `ℝ` (the cathedral slope uses a
  square root).

Python floats are modelled as exact rational/real arithmetic, `math.ceil` as
`Int.ceil`, and the `x if cond else y` guards as `if _ then _ else _`.
-/

/-- `FT2_TO_M2 = 0.09290304`, the square-feet to square-metres factor
(module-level constant of the source). -/
def FT2_TO_M2 : ℚ := 0.09290304

namespace Drywall

/-- A room of the drywall estimator: length, width, wall height (all in feet),
window and door openings as (width, height) pairs, and the
"Include ceiling?" flag. -/
structure Room where
  length : ℚ
  width : ℚ
  height : ℚ
  windows : List (ℚ × ℚ)
  doors : List (ℚ × ℚ)
  include_ceiling : Bool
  deriving DecidableEq

/-- `perimeter = 2 * (length + width)`. -/
def perimeter (r : Room) : ℚ := 2 * (r.length + r.width)

/-- `wall_area_gross = perimeter * height`. -/
def wall_area_gross (r : Room) : ℚ := perimeter r * r.height

/-- `openings_area = sum(w*h for windows) + sum(w*h for doors)`. -/
def openings_area (r : Room) : ℚ :=
  (r.windows.map fun p => p.1 * p.2).sum + (r.doors.map fun p => p.1 * p.2).sum

/-- `wall_area_net = max(wall_area_gross - openings_area, 0.0)`. -/
def wall_area_net (r : Room) : ℚ := max (wall_area_gross r - openings_area r) 0

/-- `ceiling_area = (length * width) if include_ceiling else 0.0`. -/
def ceiling_area (r : Room) : ℚ := if r.include_ceiling then r.length * r.width else 0

/-- `total_area_ft2 = wall_area_net + ceiling_area`. -/
def total_area_ft2 (r : Room) : ℚ := wall_area_net r + ceiling_area r

/-- `waste_multiplier = 1.0 + waste_pct / 100.0`. -/
def waste_multiplier (waste_pct : ℚ) : ℚ := 1 + waste_pct / 100

/-- `total_with_waste_ft2 = total_area_ft2 * waste_multiplier`. -/
def total_with_waste_ft2 (r : Room) (waste_pct : ℚ) : ℚ :=
  total_area_ft2 r * waste_multiplier waste_pct

/-- Claim C1: for every room, the net wall area equals
`max(perimeter * height - openings_area, 0)`; it is never negative, and it is
exactly `0` as soon as the combined opening area is at least the gross wall
area. -/
theorem C1_wall_area_net_clamped (r : Room) :
    wall_area_net r = max (perimeter r * r.height - openings_area r) 0 ∧
    0 ≤ wall_area_net r ∧
    (wall_area_gross r ≤ openings_area r → wall_area_net r = 0) := by
  refine ⟨rfl, le_max_right _ _, fun h => ?_⟩
  rw [wall_area_net, max_eq_right (sub_nonpos.mpr h)]

/-- Witness for C1 at a concrete room whose single window (20 ft × 20 ft,
area 400) exceeds the gross wall area (2·(10+10)·8 = 320): the clamped net
wall area is `0`. -/
theorem C1_wall_area_net_clamped_witness :
    wall_area_net ⟨10, 10, 8, [(20, 20)], [], true⟩ = 0 :=
  (C1_wall_area_net_clamped ⟨10, 10, 8, [(20, 20)], [], true⟩).2.2 (by
    show wall_area_gross _ ≤ openings_area _
    norm_num [wall_area_gross, perimeter, openings_area])

/-- Counterexample to claim C2 as stated: a room with `length = 0` but
`width = 10`, `height = 8`, no openings, ceiling included, has
`perimeter = 2*(0+10) = 20`, hence gross (and net) wall area `160`, so
`total_area_ft2 = 160 ≠ 0` and (waste 0 %) `total_with_waste_ft2 = 160 ≠ 0`,
contradicting "zero length or zero width implies total area 0". -/
theorem C2_counterexample :
    (⟨0, 10, 8, [], [], true⟩ : Room).length = 0 ∧
    total_area_ft2 ⟨0, 10, 8, [], [], true⟩ = 160 ∧
    total_with_waste_ft2 ⟨0, 10, 8, [], [], true⟩ 0 = 160 ∧ (160 : ℚ) ≠ 0 := by
  refine ⟨rfl, ?_, ?_, by norm_num⟩ <;>
    norm_num [total_area_ft2, total_with_waste_ft2, wall_area_net, wall_area_gross,
      perimeter, openings_area, ceiling_area, waste_multiplier]

/-- Claim C2 (amended): for every room whose length AND width are both `0`
(any height, non-negative opening areas, any ceiling flag and waste
percentage), `total_area_ft2 = 0` and `total_with_waste_ft2 = 0`. -/
theorem C2_zero_dims_zero_area (r : Room) (hl : r.length = 0) (hw : r.width = 0)
    (hop : 0 ≤ openings_area r) (waste_pct : ℚ) :
    total_area_ft2 r = 0 ∧ total_with_waste_ft2 r waste_pct = 0 := by
  have hg : wall_area_gross r = 0 := by
    simp [wall_area_gross, perimeter, hl, hw]
  have hnet : wall_area_net r = 0 := by
    rw [wall_area_net, hg, max_eq_right (by linarith)]
  have hc : ceiling_area r = 0 := by
    simp [ceiling_area, hl, hw]
  have ht : total_area_ft2 r = 0 := by rw [total_area_ft2, hnet, hc]; ring
  exact ⟨ht, by rw [total_with_waste_ft2, ht]; ring⟩

/-- Witness for the amended C2 at a concrete degenerate room
(`length = width = 0`, height 8, one 2 ft × 3 ft window, ceiling included,
waste 10 %). -/
theorem C2_zero_dims_zero_area_witness :
    total_area_ft2 ⟨0, 0, 8, [(2, 3)], [], true⟩ = 0 ∧
    total_with_waste_ft2 ⟨0, 0, 8, [(2, 3)], [], true⟩ 10 = 0 :=
  C2_zero_dims_zero_area ⟨0, 0, 8, [(2, 3)], [], true⟩ rfl rfl
    (by norm_num [openings_area]) 10

/-- `sheets = math.ceil(total_waste_ft2 / sheet_area) if sheet_area > 0 else 0`. -/
def sheets (total_waste_ft2 sheet_area : ℚ) : ℤ :=
  if sheet_area > 0 then ⌈total_waste_ft2 / sheet_area⌉ else 0

/-- `mud_gal = (total_waste_ft2 / 1000.0) * mud_gal_per_1000`. -/
def mud_gal (total_waste_ft2 mud_gal_per_1000 : ℚ) : ℚ :=
  total_waste_ft2 / 1000 * mud_gal_per_1000

/-- `mud_pails = math.ceil(mud_gal / mud_pail_gal) if mud_pail_gal > 0 else 0`. -/
def mud_pails (total_waste_ft2 mud_gal_per_1000 mud_pail_gal : ℚ) : ℤ :=
  if mud_pail_gal > 0 then ⌈mud_gal total_waste_ft2 mud_gal_per_1000 / mud_pail_gal⌉ else 0

/-- `tape_rolls = math.ceil(total_waste_ft2 / tape_sqft_per_roll) if tape_sqft_per_roll > 0 else 0`. -/
def tape_rolls (total_waste_ft2 tape_sqft_per_roll : ℚ) : ℤ :=
  if tape_sqft_per_roll > 0 then ⌈total_waste_ft2 / tape_sqft_per_roll⌉ else 0

/-- `screws_qty = math.ceil(total_waste_ft2 * screws_per_sqft)`. -/
def screws_qty (total_waste_ft2 screws_per_sqft : ℚ) : ℤ :=
  ⌈total_waste_ft2 * screws_per_sqft⌉

/-- `screws_boxes = math.ceil(screws_qty / screws_per_box) if screws_per_box > 0 else 0`. -/
def screws_boxes (total_waste_ft2 screws_per_sqft screws_per_box : ℚ) : ℤ :=
  if screws_per_box > 0 then
    ⌈(screws_qty total_waste_ft2 screws_per_sqft : ℚ) / screws_per_box⌉
  else 0

/-- `corner_bead_lf = (total_waste_ft2 / 1000.0) * corner_bead_lf_per_1000`. -/
def corner_bead_lf (total_waste_ft2 corner_bead_lf_per_1000 : ℚ) : ℚ :=
  total_waste_ft2 / 1000 * corner_bead_lf_per_1000

/-- `corner_bead_pcs = math.ceil(corner_bead_lf / corner_bead_piece_len_ft) if corner_bead_piece_len_ft > 0 else 0`. -/
def corner_bead_pcs (total_waste_ft2 corner_bead_lf_per_1000 corner_bead_piece_len_ft : ℚ) : ℤ :=
  if corner_bead_piece_len_ft > 0 then
    ⌈corner_bead_lf total_waste_ft2 corner_bead_lf_per_1000 / corner_bead_piece_len_ft⌉
  else 0

/-- Claim C3: every discrete drywall quantity is a guarded ceiling division:
when its rate is strictly positive it equals `⌈value / rate⌉`, and when the
rate is zero it equals `0` (the guard makes the computation total, so no
division-by-zero is possible). -/
theorem C3_quantities_guarded_ceil_div
    (tw sheet_area mg_per_1000 pail_gal tape_per_roll per_sqft per_box lf_per_1000 piece_len : ℚ) :
    ((0 < sheet_area → sheets tw sheet_area = ⌈tw / sheet_area⌉) ∧
      (sheet_area = 0 → sheets tw sheet_area = 0)) ∧
    ((0 < pail_gal →
        mud_pails tw mg_per_1000 pail_gal = ⌈mud_gal tw mg_per_1000 / pail_gal⌉) ∧
      (pail_gal = 0 → mud_pails tw mg_per_1000 pail_gal = 0)) ∧
    ((0 < tape_per_roll → tape_rolls tw tape_per_roll = ⌈tw / tape_per_roll⌉) ∧
      (tape_per_roll = 0 → tape_rolls tw tape_per_roll = 0)) ∧
    ((0 < per_box → screws_boxes tw per_sqft per_box =
        ⌈(screws_qty tw per_sqft : ℚ) / per_box⌉) ∧
      (per_box = 0 → screws_boxes tw per_sqft per_box = 0)) ∧
    ((0 < piece_len → corner_bead_pcs tw lf_per_1000 piece_len =
        ⌈corner_bead_lf tw lf_per_1000 / piece_len⌉) ∧
      (piece_len = 0 → corner_bead_pcs tw lf_per_1000 piece_len = 0)) := by
  refine ⟨⟨?_, ?_⟩, ⟨?_, ?_⟩, ⟨?_, ?_⟩, ⟨?_, ?_⟩, ⟨?_, ?_⟩⟩ <;> intro h <;>
    simp [sheets, mud_pails, tape_rolls, screws_boxes, corner_bead_pcs, h]

/-- Witness for C3 at concrete values: 462 ft² of board with 32 ft² sheets
needs `⌈462/32⌉ = 15` sheets, and a zero mud-pail size yields `0` pails
rather than a division error. -/
theorem C3_quantities_guarded_ceil_div_witness :
    sheets 462 32 = 15 ∧ mud_pails 462 9.5 0 = 0 := by
  have h := C3_quantities_guarded_ceil_div 462 32 9.5 0 1200 1.25 1000 50 8
  constructor
  · rw [h.1.1 (by norm_num)]
    rw [Int.ceil_eq_iff]
    constructor <;> norm_num
  · exact h.2.1.2 rfl

/-- `charge_area_ft2 = total_waste_ft2 + qualifying_hp_area_ft2`;
`labour_area_cost` follows the cascade: per-ft² rate if positive, else the
m²-converted area times the per-m² rate if that is positive, else `0`. -/
def labour_area_cost (total_waste_ft2 qualifying_hp_area_ft2 labour_rate_sqft labour_rate_sqm : ℚ) : ℚ :=
  if labour_rate_sqft > 0 then
    (total_waste_ft2 + qualifying_hp_area_ft2) * labour_rate_sqft
  else if labour_rate_sqm > 0 then
    (total_waste_ft2 + qualifying_hp_area_ft2) * FT2_TO_M2 * labour_rate_sqm
  else 0

/-- Claim C7: the drywall area labour cost is the charge area
(with-waste total plus qualifying high-part area) times the per-ft² rate when
that rate is positive; with a zero per-ft² rate and positive per-m² rate it is
the charge area times `0.09290304` (ft² → m²) times the per-m² rate; with both
rates zero it is `0`. -/
theorem C7_labour_area_cost_cascade (tw hp rft rsm : ℚ) :
    (0 < rft → labour_area_cost tw hp rft rsm = (tw + hp) * rft) ∧
    (rft = 0 → 0 < rsm →
      labour_area_cost tw hp rft rsm = (tw + hp) * 0.09290304 * rsm) ∧
    (rft = 0 → rsm = 0 → labour_area_cost tw hp rft rsm = 0) := by
  refine ⟨fun h => ?_, fun h h2 => ?_, fun h h2 => ?_⟩
  · simp [labour_area_cost, h]
  · simp [labour_area_cost, FT2_TO_M2, h, h2]
  · simp [labour_area_cost, h, h2]

/-- Witness for C7: with per-ft² rate `0` and per-m² rate `2`, a charge area
of `1000 + 0` ft² is billed at `1000 × 0.09290304 × 2`. -/
theorem C7_labour_area_cost_cascade_witness :
    labour_area_cost 1000 0 0 2 = (1000 + 0) * 0.09290304 * 2 :=
  (C7_labour_area_cost_cascade 1000 0 0 2).2.1 rfl (by norm_num)

/-- A high part of the drywall estimator: height (ft) and area (ft²). -/
structure HighPart where
  height : ℚ
  area : ℚ
  deriving DecidableEq

/-- `if hp_height > 10.0 and hp_area > 64.0` — the qualification test of the
high-parts loop. -/
def hp_qualifies (hp : HighPart) : Prop := hp.height > 10 ∧ hp.area > 64

instance (hp : HighPart) : Decidable (hp_qualifies hp) := by
  unfold hp_qualifies; infer_instance

/-- The accumulated `qualifying_hp_area_ft2` of the high-parts loop: each part
adds its area iff it qualifies. -/
def qualifying_hp_area_ft2 (parts : List HighPart) : ℚ :=
  (parts.map fun hp => if hp_qualifies hp then hp.area else 0).sum

/-- The accumulated `qualifying_hp_count` of the high-parts loop: each part
adds `1` iff it qualifies. -/
def qualifying_hp_count (parts : List HighPart) : ℕ :=
  (parts.map fun hp => if hp_qualifies hp then 1 else 0).sum

/-- Claim C8: a high part qualifies iff `height > 10 ∧ area > 64`; each part
contributes its area and `1` to the aggregates iff it qualifies (and nothing
otherwise); the part (11, 70) qualifies and contributes, while (11, 50) does
not qualify and contributes nothing. -/
theorem C8_high_part_qualification (hp : HighPart) (parts : List HighPart) :
    (hp_qualifies hp ↔ hp.height > 10 ∧ hp.area > 64) ∧
    qualifying_hp_area_ft2 (hp :: parts) =
      (if hp_qualifies hp then hp.area else 0) + qualifying_hp_area_ft2 parts ∧
    qualifying_hp_count (hp :: parts) =
      (if hp_qualifies hp then 1 else 0) + qualifying_hp_count parts ∧
    (¬ hp_qualifies hp →
      qualifying_hp_area_ft2 (hp :: parts) = qualifying_hp_area_ft2 parts ∧
      qualifying_hp_count (hp :: parts) = qualifying_hp_count parts) ∧
    hp_qualifies ⟨11, 70⟩ ∧ ¬ hp_qualifies ⟨11, 50⟩ ∧
    qualifying_hp_area_ft2 [⟨11, 70⟩] = 70 ∧ qualifying_hp_count [⟨11, 70⟩] = 1 ∧
    qualifying_hp_area_ft2 [⟨11, 50⟩] = 0 ∧ qualifying_hp_count [⟨11, 50⟩] = 0 := by
  refine ⟨Iff.rfl, rfl, rfl, fun h => ?_, ?_, ?_, ?_, ?_, ?_, ?_⟩
  · constructor <;> simp [qualifying_hp_area_ft2, qualifying_hp_count, if_neg h]
  · exact ⟨by norm_num, by norm_num⟩
  · rw [hp_qualifies]; push_neg; intro; norm_num
  · simp [qualifying_hp_area_ft2, hp_qualifies]; norm_num
  · simp [qualifying_hp_count, hp_qualifies]; norm_num
  · have : ¬ hp_qualifies ⟨11, 50⟩ := by rw [hp_qualifies]; push_neg; intro; norm_num
    simp [qualifying_hp_area_ft2, if_neg this]
  · have : ¬ hp_qualifies ⟨11, 50⟩ := by rw [hp_qualifies]; push_neg; intro; norm_num
    simp [qualifying_hp_count, if_neg this]

/-- Witness for C8 at the concrete non-qualifying part (11, 50): prepending it
to the empty list leaves both aggregates unchanged. -/
theorem C8_high_part_qualification_witness :
    qualifying_hp_area_ft2 [⟨11, 50⟩] = qualifying_hp_area_ft2 [] ∧
    qualifying_hp_count [⟨11, 50⟩] = qualifying_hp_count [] :=
  (C8_high_part_qualification ⟨11, 50⟩ []).2.2.2.1
    (by norm_num [hp_qualifies])

/-- The complete input of one drywall-estimator run: the rooms, the waste
percentage, the takeoff factors, the resilient-channel settings, the unit
costs and extras, the labour and tax settings, and the high parts. -/
structure DrywallInputs where
  rooms : List Room
  waste_pct : ℚ
  mud_gal_per_1000 : ℚ
  mud_pail_gal : ℚ
  tape_sqft_per_roll : ℚ
  screws_per_sqft : ℚ
  screws_per_box : ℚ
  corner_bead_lf_per_1000 : ℚ
  corner_bead_piece_len_ft : ℚ
  sheet_size_4x8 : Bool
  include_resilient_channel : Bool
  rc_spacing_in : ℚ
  rc_piece_length_ft : ℚ
  cost_rc_piece : ℚ
  cost_per_sheet : ℚ
  cost_mud_pail : ℚ
  cost_tape_roll : ℚ
  cost_screws_box : ℚ
  cost_corner_bead_piece : ℚ
  pot_light_count : ℕ
  pot_light_cost : ℚ
  labour_rate_sqft : ℚ
  labour_rate_sqm : ℚ
  tax_pct : ℚ
  labour_high_part_flat : ℚ
  labour_high_part_rate_sqft : ℚ
  high_parts : List HighPart
  deriving DecidableEq

/-- The resilient-channel linear feet accumulated by the room loop
(`rows = floor(width*12 / rc_spacing_in) + 1; rc_total_lf += rows * length`
when RC is enabled, the ceiling is included and both dimensions are
positive). The source then overwrites this accumulator with `0.0` before the
takeoff (`rc_total_lf = 0.0 if len(df) == 0 else sum([])`) and displays no
RC quantity or cost, so it reaches no reported output. -/
def rc_total_lf (i : DrywallInputs) : ℚ :=
  (i.rooms.map fun r =>
    if i.include_resilient_channel ∧ r.include_ceiling ∧ 0 < r.width ∧ 0 < r.length then
      ((⌊r.width * 12 / i.rc_spacing_in⌋ + 1 : ℤ) : ℚ) * r.length
    else 0).sum

/-- One row of the per-room breakdown table (the displayed `show_cols`,
minus the room name). -/
structure RoomRow where
  length_ft : ℚ
  width_ft : ℚ
  height_ft : ℚ
  wall_area_net_ft2 : ℚ
  ceiling_area_ft2 : ℚ
  total_area_ft2 : ℚ
  total_area_m2 : ℚ
  total_with_waste_ft2 : ℚ
  total_with_waste_m2 : ℚ
  deriving DecidableEq

/-- The breakdown row derived from one room. -/
def room_row (waste_pct : ℚ) (r : Room) : RoomRow :=
  { length_ft := r.length
    width_ft := r.width
    height_ft := r.height
    wall_area_net_ft2 := wall_area_net r
    ceiling_area_ft2 := ceiling_area r
    total_area_ft2 := total_area_ft2 r
    total_area_m2 := total_area_ft2 r * FT2_TO_M2
    total_with_waste_ft2 := total_with_waste_ft2 r waste_pct
    total_with_waste_m2 := total_with_waste_ft2 r waste_pct * FT2_TO_M2 }

/-- Every numeric output reported by one drywall-estimator run: the per-room
breakdown, the grand totals, the takeoff quantities, the cost breakdown and
the totals. -/
structure DrywallResult where
  room_rows : List RoomRow
  total_ft2 : ℚ
  total_m2 : ℚ
  total_waste_ft2 : ℚ
  total_waste_m2 : ℚ
  sheets : ℤ
  mud_gal : ℚ
  mud_pails : ℤ
  tape_rolls : ℤ
  screws_qty : ℤ
  screws_boxes : ℤ
  corner_bead_lf : ℚ
  corner_bead_pcs : ℤ
  material_subtotal : ℚ
  labour_area_cost : ℚ
  labour_high_parts_cost : ℚ
  labour_subtotal : ℚ
  subtotal_no_tax : ℚ
  total_with_tax : ℚ
  cash_price : ℚ
  qualifying_hp_count : ℕ
  qualifying_hp_area_ft2 : ℚ
  deriving DecidableEq

/-- One full drywall-estimator run (`none` when the room list is empty, as
the source shows no results then). Mirrors the summary/takeoff/pricing block
of `run_drywall_estimator`. -/
def drywall_result (i : DrywallInputs) : Option DrywallResult :=
  if i.rooms.isEmpty then none else
    let tw := (i.rooms.map fun r => total_with_waste_ft2 r i.waste_pct).sum
    let total_ft2 := (i.rooms.map total_area_ft2).sum
    let sheet_area : ℚ := if i.sheet_size_4x8 then 32 else 48
    let sh := sheets tw sheet_area
    let mg := mud_gal tw i.mud_gal_per_1000
    let mp := mud_pails tw i.mud_gal_per_1000 i.mud_pail_gal
    let tr := tape_rolls tw i.tape_sqft_per_roll
    let sq := screws_qty tw i.screws_per_sqft
    let sb := screws_boxes tw i.screws_per_sqft i.screws_per_box
    let cblf := corner_bead_lf tw i.corner_bead_lf_per_1000
    let cbp := corner_bead_pcs tw i.corner_bead_lf_per_1000 i.corner_bead_piece_len_ft
    let material_subtotal :=
      (sh : ℚ) * i.cost_per_sheet + (mp : ℚ) * i.cost_mud_pail + (tr : ℚ) * i.cost_tape_roll +
        (sb : ℚ) * i.cost_screws_box + (cbp : ℚ) * i.cost_corner_bead_piece +
        (i.pot_light_count : ℚ) * i.pot_light_cost
    let qa := qualifying_hp_area_ft2 i.high_parts
    let qc := qualifying_hp_count i.high_parts
    let lac := labour_area_cost tw qa i.labour_rate_sqft i.labour_rate_sqm
    let lhp :=
      if 0 < qc ∧ 0 < i.labour_high_part_flat then (qc : ℚ) * i.labour_high_part_flat
      else qa * i.labour_high_part_rate_sqft
    let lsub := lac + lhp
    let sub := material_subtotal + lsub
    some
      { room_rows := i.rooms.map (room_row i.waste_pct)
        total_ft2 := total_ft2
        total_m2 := total_ft2 * FT2_TO_M2
        total_waste_ft2 := tw
        total_waste_m2 := tw * FT2_TO_M2
        sheets := sh
        mud_gal := mg
        mud_pails := mp
        tape_rolls := tr
        screws_qty := sq
        screws_boxes := sb
        corner_bead_lf := cblf
        corner_bead_pcs := cbp
        material_subtotal := material_subtotal
        labour_area_cost := lac
        labour_high_parts_cost := lhp
        labour_subtotal := lsub
        subtotal_no_tax := sub
        total_with_tax := if 0 < i.tax_pct then sub * (1 + i.tax_pct / 100) else sub
        cash_price := sub
        qualifying_hp_count := qc
        qualifying_hp_area_ft2 := qa }

/-- Overwrite the four resilient-channel settings with their defaults,
leaving every other input unchanged. Two inputs differ only in their RC
settings exactly when this function identifies them. -/
def set_rc_defaults (i : DrywallInputs) : DrywallInputs :=
  { i with
    include_resilient_channel := false
    rc_spacing_in := 16
    rc_piece_length_ft := 12
    cost_rc_piece := 0 }

/-- Claim C9: two drywall runs whose inputs agree on everything except the
resilient-channel settings (include flag, spacing, piece length, cost per
piece) report identical results — per-room breakdown, quantities, costs and
totals alike. -/
theorem C9_resilient_channel_no_influence (i j : DrywallInputs)
    (h : set_rc_defaults i = set_rc_defaults j) :
    drywall_result i = drywall_result j := by
  have hi : drywall_result i = drywall_result (set_rc_defaults i) := rfl
  have hj : drywall_result j = drywall_result (set_rc_defaults j) := rfl
  rw [hi, hj, h]

/-- Witness for C9: two concrete one-room runs that differ in all four RC
settings (disabled/16"/12 ft/$0 versus enabled/24"/8 ft/$5) produce the same
result. -/
theorem C9_resilient_channel_no_influence_witness :
    drywall_result
        ⟨[⟨10, 10, 8, [], [], true⟩], 10, 9.5, 4.5, 1200, 1.25, 1000, 50, 8, true,
          false, 16, 12, 0, 20, 60, 7, 40, 4, 2, 30, 0.5, 0, 13, 100, 2, [⟨11, 70⟩]⟩ =
      drywall_result
        ⟨[⟨10, 10, 8, [], [], true⟩], 10, 9.5, 4.5, 1200, 1.25, 1000, 50, 8, true,
          true, 24, 8, 5, 20, 60, 7, 40, 4, 2, 30, 0.5, 0, 13, 100, 2, [⟨11, 70⟩]⟩ :=
  C9_resilient_channel_no_influence _ _ rfl

end Drywall

namespace Insulation

/-- One insulation material specification: coverage per bag (ft²) and
pieces per bag. -/
structure MatSpec where
  coverage_per_bag : ℚ
  pieces_per_bag : ℕ
  deriving DecidableEq

/-- One entry of the static `MATERIAL_SPECS` table: R-value, width (inches),
and the spec. -/
structure SpecEntry where
  r_value : String
  width : ℕ
  spec : MatSpec
  deriving DecidableEq

/-- The static `MATERIAL_SPECS` table of `run_insulation_estimator`,
flattened to its fourteen (R-value, width) entries. -/
def MATERIAL_SPECS : List SpecEntry :=
  [⟨"R12", 15, ⟨100, 20⟩⟩, ⟨"R12", 23, ⟨153.3, 20⟩⟩,
   ⟨"R14", 15, ⟨78.3, 16⟩⟩, ⟨"R14", 23, ⟨120.1, 16⟩⟩,
   ⟨"R20", 15, ⟨80, 16⟩⟩, ⟨"R20", 23, ⟨122.7, 16⟩⟩,
   ⟨"R22", 15, ⟨49, 10⟩⟩, ⟨"R22", 23, ⟨75.1, 10⟩⟩,
   ⟨"R28", 16, ⟨53.3, 10⟩⟩, ⟨"R28", 24, ⟨80, 10⟩⟩,
   ⟨"R31", 16, ⟨42.7, 8⟩⟩, ⟨"R31", 24, ⟨64, 8⟩⟩,
   ⟨"R40", 16, ⟨32, 6⟩⟩, ⟨"R40", 24, ⟨48, 6⟩⟩]

/-- A cathedral section: `(length, base_width, height_above)` in feet
(`height_above` is the rise of the ridge over the wall plate). -/
structure CatSection where
  length : ℝ
  base_width : ℝ
  rise : ℝ

/-- `slope = math.sqrt(max((bw / 2) ** 2 + rise ** 2, 0.0))`. -/
noncomputable def slope (s : CatSection) : ℝ :=
  Real.sqrt (max ((s.base_width / 2) ^ 2 + s.rise ^ 2) 0)

/-- The accumulated `total_cat_area`: `total += 2 * slope * length` over the
sections. -/
noncomputable def total_cat_area (sections : List CatSection) : ℝ :=
  (sections.map fun s => 2 * slope s * s.length).sum

/-- The complete input of one insulation-estimator run: the selected wall and
cathedral specs (coverage/pieces as chosen from `MATERIAL_SPECS`), prices,
dimensions, blown-in ceiling numbers, and the labour/surcharge settings. -/
structure InsulInputs where
  wall_linear_feet : ℝ
  wall_height : ℝ
  wall_cov : ℝ
  wall_pcs : ℕ
  wall_price_per_bag : ℝ
  cat_cov : ℝ
  cat_pcs : ℕ
  cat_price_per_bag : ℝ
  ceiling_cov_per_bag : ℝ
  ceiling_price_per_bag : ℝ
  wall_stud_spacing : ℝ
  cat_sections : List CatSection
  cat_spacing_in : ℝ
  blow_sq : ℝ
  vault_sq : ℝ
  wall_labour_rate : ℝ
  ceiling_hourly : ℝ
  ceiling_hours : ℝ
  ceiling_flat_srchg : ℝ
  cathedral_hourly : ℝ
  cathedral_hours : ℝ
  cathedral_flat : ℝ

/-- `wall_area = wall_linear_feet * wall_height`. -/
def wall_area (i : InsulInputs) : ℝ := i.wall_linear_feet * i.wall_height

/-- `wall_bags = math.ceil(wall_area / wb_cov) if wb_cov > 0 else 0`. -/
noncomputable def wall_bags (i : InsulInputs) : ℤ :=
  if i.wall_cov > 0 then ⌈wall_area i / i.wall_cov⌉ else 0

/-- `wall_pieces = wall_bags * wb_pcs`. -/
noncomputable def wall_pieces (i : InsulInputs) : ℤ := wall_bags i * i.wall_pcs

/-- `wall_cost = wall_bags * wall_price_per_bag`. -/
noncomputable def wall_cost (i : InsulInputs) : ℝ := (wall_bags i : ℝ) * i.wall_price_per_bag

/-- `buffered_cov = cs_cov * 1.10 if cs_cov > 0 else 0`. -/
noncomputable def buffered_cov (cov : ℝ) : ℝ := if cov > 0 then cov * 1.10 else 0

/-- `cat_bags = math.ceil(total_cat_area / buffered_cov) if buffered_cov > 0 else 0`. -/
noncomputable def cat_bags (i : InsulInputs) : ℤ :=
  if buffered_cov i.cat_cov > 0 then
    ⌈total_cat_area i.cat_sections / buffered_cov i.cat_cov⌉
  else 0

/-- `cat_pieces = cat_bags * cs_pcs`. -/
noncomputable def cat_pieces (i : InsulInputs) : ℤ := cat_bags i * i.cat_pcs

/-- `cat_cost = cat_bags * cat_price_per_bag`. -/
noncomputable def cat_cost (i : InsulInputs) : ℝ := (cat_bags i : ℝ) * i.cat_price_per_bag

/-- `ceiling_area = max(blow_sq - vault_sq, 0)`. -/
def ceiling_area (i : InsulInputs) : ℝ := max (i.blow_sq - i.vault_sq) 0

/-- `ceiling_bags = math.ceil(ceiling_area / ceiling_cov_per_bag) if ceiling_cov_per_bag else 0`
(Python truthiness: any non-zero coverage takes the division branch). -/
noncomputable def ceiling_bags (i : InsulInputs) : ℤ :=
  if i.ceiling_cov_per_bag ≠ 0 then ⌈ceiling_area i / i.ceiling_cov_per_bag⌉ else 0

/-- `ceiling_mat_cost = ceiling_bags * ceiling_price_per_bag`. -/
noncomputable def ceiling_mat_cost (i : InsulInputs) : ℝ :=
  (ceiling_bags i : ℝ) * i.ceiling_price_per_bag

/-- `wall_batts = math.ceil(wall_linear_feet / (wall_stud_spacing / 12)) if wall_stud_spacing else 0`. -/
noncomputable def wall_batts (i : InsulInputs) : ℤ :=
  if i.wall_stud_spacing ≠ 0 then ⌈i.wall_linear_feet / (i.wall_stud_spacing / 12)⌉ else 0

/-- Per-section `math.ceil(bw / (cat_spacing_in / 12)) if cat_spacing_in else 0`. -/
noncomputable def cat_batts (i : InsulInputs) : List ℤ :=
  i.cat_sections.map fun s =>
    if i.cat_spacing_in ≠ 0 then ⌈s.base_width / (i.cat_spacing_in / 12)⌉ else 0

/-- `wall_lab = wall_area * wall_labour_rate`. -/
def wall_lab (i : InsulInputs) : ℝ := wall_area i * i.wall_labour_rate

/-- `area_lab = (wall_area + total_cat_area) * wall_labour_rate`. -/
noncomputable def area_lab (i : InsulInputs) : ℝ :=
  (wall_area i + total_cat_area i.cat_sections) * i.wall_labour_rate

/-- `ceil_lab = ceiling_hourly * ceiling_hours + ceiling_flat_srchg`. -/
def ceil_lab (i : InsulInputs) : ℝ := i.ceiling_hourly * i.ceiling_hours + i.ceiling_flat_srchg

/-- `cat_surch = ((cathedral_hourly * cathedral_hours) + cathedral_flat) * int(num_cat)`. -/
def cat_surch (i : InsulInputs) : ℝ :=
  (i.cathedral_hourly * i.cathedral_hours + i.cathedral_flat) * (i.cat_sections.length : ℝ)

/-- `mat_total = wall_cost + cat_cost + ceiling_mat_cost`. -/
noncomputable def mat_total (i : InsulInputs) : ℝ := wall_cost i + cat_cost i + ceiling_mat_cost i

/-- `lab_total = wall_lab + area_lab + ceil_lab + cat_surch`. -/
noncomputable def lab_total (i : InsulInputs) : ℝ :=
  wall_lab i + area_lab i + ceil_lab i + cat_surch i

/-- `total_tax = (mat_total + lab_total) * 1.05`. -/
noncomputable def total_tax (i : InsulInputs) : ℝ := (mat_total i + lab_total i) * 1.05

/-- `total_buf = total_tax * 1.10`. -/
noncomputable def total_buf (i : InsulInputs) : ℝ := total_tax i * 1.10

/-- The `max(.., 0)` inside the slope's square root is redundant: the
radicand is a sum of squares. -/
theorem slope_eq (s : CatSection) :
    slope s = Real.sqrt ((s.base_width / 2) ^ 2 + s.rise ^ 2) := by
  rw [slope, max_eq_left (by positivity)]

/-- The worked example: one section of length 10, base width 8, rise 3 has
slope `√(4² + 3²) = 5` and area `2 * 5 * 10 = 100` ft². -/
theorem cat_area_example : total_cat_area [⟨10, 8, 3⟩] = 100 := by
  rw [total_cat_area]
  simp only [List.map_cons, List.map_nil, List.sum_cons, List.sum_nil]
  rw [slope_eq]
  show 2 * Real.sqrt (((8 : ℝ) / 2) ^ 2 + (3 : ℝ) ^ 2) * 10 + 0 = 100
  rw [show ((8 : ℝ) / 2) ^ 2 + (3 : ℝ) ^ 2 = 5 ^ 2 by norm_num,
    Real.sqrt_sq (by norm_num)]
  norm_num

/-- A concrete insulation run used by the witnesses: R12/15" spec
(coverage 100, 20 pieces) for both wall and cathedral, wall 40 ft × 8 ft,
one cathedral section (length 10, base width 8, rise 3). -/
def ins_demo : InsulInputs :=
  ⟨40, 8, 100, 20, 90, 100, 20, 95, 53.3, 80, 16, [⟨10, 8, 3⟩], 16,
    900, 100, 2, 95, 3, 50, 110, 1, 75⟩

/-- Claim C4: the total cathedral area is the sum over sections of
`2 * √((base_width/2)² + rise²) * length` (the `max(.., 0)` inside the square
root is redundant since the radicand is a sum of squares); the single section
(length 10, base width 8, rise 3) has area exactly 100 ft²; and with a
positive selected coverage `c` the cathedral bag count is
`⌈total area / (c * 1.10)⌉`. -/
theorem C4_cathedral_slope_area (i : InsulInputs) (hc : 0 < i.cat_cov) :
    total_cat_area i.cat_sections =
      (i.cat_sections.map fun s =>
        2 * Real.sqrt ((s.base_width / 2) ^ 2 + s.rise ^ 2) * s.length).sum ∧
    total_cat_area [⟨10, 8, 3⟩] = 100 ∧
    cat_bags i = ⌈total_cat_area i.cat_sections / (i.cat_cov * 1.10)⌉ := by
  refine ⟨?_, cat_area_example, ?_⟩
  · rw [total_cat_area]
    congr 1
    exact List.map_congr_left fun s _ => by rw [slope_eq s]
  · have hb : buffered_cov i.cat_cov = i.cat_cov * 1.10 := if_pos hc
    rw [cat_bags, if_pos (by rw [hb]; positivity), hb]

/-- Witness for C4 at `ins_demo` (single section length 10, base width 8,
rise 3; selected coverage 100): the area is 100 ft² and the bag count is
`⌈100 / (100 * 1.10)⌉`. -/
theorem C4_cathedral_slope_area_witness :
    total_cat_area ins_demo.cat_sections = 100 ∧
    cat_bags ins_demo = ⌈(100 : ℝ) / (100 * 1.10)⌉ := by
  obtain ⟨-, h2, h3⟩ := C4_cathedral_slope_area ins_demo (by norm_num [ins_demo])
  have hsec : ins_demo.cat_sections = [⟨10, 8, 3⟩] := rfl
  have hcov : ins_demo.cat_cov = (100 : ℝ) := rfl
  rw [hsec]
  exact ⟨h2, by rw [h3, hsec, h2, hcov]⟩

/-- Claim C5: for every insulation input, the tax-inclusive total is
`(material total + labour total) * 1.05`, the buffered total is the
tax-inclusive total `* 1.10`, and the material total is the sum of the wall,
cathedral and ceiling material costs; the two multipliers are the same fixed
constants for all inputs. -/
theorem C5_fixed_tax_and_buffer (i : InsulInputs) :
    total_tax i = (mat_total i + lab_total i) * 1.05 ∧
    total_buf i = total_tax i * 1.10 ∧
    mat_total i = wall_cost i + cat_cost i + ceiling_mat_cost i :=
  ⟨rfl, rfl, rfl⟩

/-- Claim C6: the labour total is
`wall_lab + area_lab + ceil_lab + cat_surch` with
`wall_lab = wall_area * rate` and `area_lab = (wall_area + cathedral area) *
rate` at the same rate — so the wall area is billed twice in the labour
total. -/
theorem C6_labour_double_counts_wall_area (i : InsulInputs) :
    lab_total i = wall_lab i + area_lab i + ceil_lab i + cat_surch i ∧
    wall_lab i = wall_area i * i.wall_labour_rate ∧
    area_lab i = (wall_area i + total_cat_area i.cat_sections) * i.wall_labour_rate ∧
    lab_total i = 2 * (wall_area i * i.wall_labour_rate) +
      total_cat_area i.cat_sections * i.wall_labour_rate + ceil_lab i + cat_surch i := by
  refine ⟨rfl, rfl, rfl, ?_⟩
  rw [lab_total, wall_lab, area_lab]
  ring

/-- Claim C10: every entry of the `MATERIAL_SPECS` table has strictly
positive coverage per bag and strictly positive pieces per bag; hence for any
selected wall and cathedral specs the zero-rate fallback branches are
unreachable — the bag counts are plain ceiling divisions — and each bag count
is at least 1 as soon as its area is strictly positive. -/
theorem C10_material_specs_positive (e f : SpecEntry)
    (he : e ∈ MATERIAL_SPECS) (hf : f ∈ MATERIAL_SPECS) (i : InsulInputs)
    (hw : i.wall_cov = (e.spec.coverage_per_bag : ℝ))
    (hc : i.cat_cov = (f.spec.coverage_per_bag : ℝ))
    (hwa : 0 < wall_area i) (hca : 0 < total_cat_area i.cat_sections) :
    (∀ g ∈ MATERIAL_SPECS, 0 < g.spec.coverage_per_bag ∧ 0 < g.spec.pieces_per_bag) ∧
    wall_bags i = ⌈wall_area i / i.wall_cov⌉ ∧ 1 ≤ wall_bags i ∧
    cat_bags i = ⌈total_cat_area i.cat_sections / (i.cat_cov * 1.10)⌉ ∧ 1 ≤ cat_bags i := by
  have hall : ∀ g ∈ MATERIAL_SPECS,
      0 < g.spec.coverage_per_bag ∧ 0 < g.spec.pieces_per_bag := by
    intro g hg
    unfold MATERIAL_SPECS at hg
    simp only [List.mem_cons, List.not_mem_nil, or_false] at hg
    rcases hg with rfl | rfl | rfl | rfl | rfl | rfl | rfl | rfl | rfl | rfl | rfl | rfl |
      rfl | rfl <;> exact ⟨by norm_num, by norm_num⟩
  have hwpos : (0 : ℝ) < i.wall_cov := by
    rw [hw]; exact_mod_cast (hall e he).1
  have hcpos : (0 : ℝ) < i.cat_cov := by
    rw [hc]; exact_mod_cast (hall f hf).1
  have hbuf : buffered_cov i.cat_cov = i.cat_cov * 1.10 := if_pos hcpos
  have hbufpos : 0 < buffered_cov i.cat_cov := by rw [hbuf]; positivity
  refine ⟨hall, if_pos hwpos, ?_, ?_, ?_⟩
  · rw [wall_bags, if_pos hwpos]
    have : (0 : ℤ) < ⌈wall_area i / i.wall_cov⌉ :=
      Int.ceil_pos.mpr (div_pos hwa hwpos)
    omega
  · rw [cat_bags, if_pos hbufpos, hbuf]
  · rw [cat_bags, if_pos hbufpos]
    have : (0 : ℤ) < ⌈total_cat_area i.cat_sections / buffered_cov i.cat_cov⌉ :=
      Int.ceil_pos.mpr (div_pos hca hbufpos)
    omega

/-- Witness for C10 at `ins_demo`: the R12/15" spec (coverage 100) is
selected for both wall and cathedral, the wall area is `40 * 8 = 320` ft² and
the single cathedral section has area 100 ft², so both bag counts are plain
ceiling divisions and at least 1. -/
theorem C10_material_specs_positive_witness :
    wall_bags ins_demo = ⌈wall_area ins_demo / ins_demo.wall_cov⌉ ∧
    1 ≤ wall_bags ins_demo ∧ 1 ≤ cat_bags ins_demo := by
  have hsec : ins_demo.cat_sections = [⟨10, 8, 3⟩] := rfl
  obtain ⟨-, h1, h2, -, h4⟩ := C10_material_specs_positive
    ⟨"R12", 15, ⟨100, 20⟩⟩ ⟨"R12", 15, ⟨100, 20⟩⟩
    (by unfold MATERIAL_SPECS; exact List.Mem.head _)
    (by unfold MATERIAL_SPECS; exact List.Mem.head _)
    ins_demo
    (by norm_num [ins_demo]) (by norm_num [ins_demo])
    (by rw [wall_area]; norm_num [ins_demo])
    (by rw [hsec, cat_area_example]; norm_num)
  exact ⟨h1, h2, h4⟩

end Insulation
